import Mathlib

set_option maxRecDepth 4000

/-!
Verification development for the `python-mplayer` supervisor
(`src/mplayer.py`).  The worker process `IOWorker` is embedded as a pure
state machine: its mutable fields (`state`, `loading`, `pending`) become
record fields, and its externally visible effects (lines written to the
subprocess stdin, values put on the `results` queue, state notifications
put on the `notifier` queue) are accumulated in lists.  Python `None` is
`Value.null`; fallible operations (a `deque.pop` from an empty deque
raises `IndexError` and kills the worker) return `Option`.
-/

/-- Playback states, `PLAYING = 0`, `PAUSED = 1`, `STOPPED = 2` in the source. -/
inductive PlayState where
  | playing
  | paused
  | stopped
deriving DecidableEq, Repr

/-- A decimal number `num / 10 ^ scale`: the model of the (binary) Python
floats the protocol and the catalog traffic in.  Every float appearing in
the spec's claims is an exact decimal, so this embedding is exact where it
is used.  Equality is representational (`⟨105, 1⟩ ≠ ⟨1050, 2⟩` as terms);
no claim compares two differently-scaled decimals. -/
structure Dec where
  num : Int
  scale : Nat
deriving DecidableEq, Repr

/-- Values travelling through the call/result queues: Python ints, floats,
strings, and `None` (`Value.null`). -/
inductive Value where
  | int (n : Int)
  | float (q : Dec)
  | str (s : String)
  | null
deriving DecidableEq, Repr

/-- Python-level argument values handed to `MPlayer.send_cmd`. -/
inductive PyVal where
  | int (n : Int)
  | float (q : Dec)
  | str (s : String)
deriving DecidableEq, Repr

/-! ### String helpers mirroring the Python primitives used by the source -/

/-- Character-list model of `bytes.startswith` / `str.startswith`. -/
def chPre : List Char → List Char → Bool
  | [], _ => true
  | _ :: _, [] => false
  | a :: as, b :: bs => a == b && chPre as bs

/-- `s.startswith(t)` from Python, on Lean strings. -/
def startswith (s t : String) : Bool := chPre t.data s.data

/-- Drop characters of `bad` from both ends: Python `bytes.strip(bad)`. -/
def stripChars (bad : List Char) (s : String) : String :=
  String.mk (((s.data.dropWhile (fun c => bad.contains c)).reverse.dropWhile
    (fun c => bad.contains c)).reverse)

/-- Strip surrounding whitespace, as Python `int()` / `float()` do before
parsing and as `bytes.strip()` with no argument does. -/
def stripWS (s : String) : String :=
  String.mk (((s.data.dropWhile Char.isWhitespace).reverse.dropWhile
    Char.isWhitespace).reverse)

/-- The text after the first `=`, or the empty string when there is no `=`:
`line.partition(b'=')[-1]`. -/
def afterEqChars : List Char → List Char
  | [] => []
  | '=' :: rest => rest
  | _ :: rest => afterEqChars rest

def afterEq (s : String) : String := String.mk (afterEqChars s.data)

/-- `' '.join(parts)`. -/
def joinSpace : List String → String
  | [] => ""
  | [x] => x
  | x :: rest => x ++ " " ++ joinSpace rest

/-- The single-quote character, the quoting stripped from answer values. -/
def squote : Char := Char.ofNat 39

/-! ### Numeric parsing and formatting (models of the Python builtins) -/

/-- Decimal digits to a natural number. -/
def digitsToNat (ds : List Char) : Nat :=
  ds.foldl (fun n c => 10 * n + (c.toNat - 48)) 0

/-- Continue a digit group after a digit has just been consumed:
CPython (3.6+) allows a single `_` between two digits.  Returns the
remaining digits of the group (underscores removed) and the rest. -/
def spanAfterDigit : List Char → (List Char × List Char)
  | [] => ([], [])
  | '_' :: rest =>
    match rest with
    | c :: rest2 =>
      if c.isDigit then
        let (g, r) := spanAfterDigit rest2
        (c :: g, r)
      else ([], '_' :: c :: rest2)
    | [] => ([], ['_'])
  | c :: rest =>
    if c.isDigit then
      let (g, r) := spanAfterDigit rest
      (c :: g, r)
    else ([], c :: rest)

/-- Consume a maximal CPython digit group -- digits with single embedded
underscores (`1_000`) -- returning the digits (underscores removed) and
the unconsumed rest. -/
def spanDigitsUnd : List Char → (List Char × List Char)
  | [] => ([], [])
  | c :: rest =>
    if c.isDigit then
      let (g, r) := spanAfterDigit rest
      (c :: g, r)
    else ([], c :: rest)

/-- Validate that the whole input is one CPython digit group (non-empty
digits, underscores only between digits) and return its digits. -/
def digitGroup? (cs : List Char) : Option (List Char) :=
  match spanDigitsUnd cs with
  | (g, []) => if g.isEmpty then Option.none else some g
  | (_, _ :: _) => Option.none

/-- Model of Python `int(str)` / `int(bytes)`: optional surrounding
whitespace, optional sign, then a digit group (underscore separators
allowed between digits, as in CPython 3.6+). -/
def pyInt? (s : String) : Option Int :=
  match (stripWS s).data with
  | [] => Option.none
  | '+' :: ds => (digitGroup? ds).map (fun g => Int.ofNat (digitsToNat g))
  | '-' :: ds => (digitGroup? ds).map (fun g => -(Int.ofNat (digitsToNat g)))
  | ds => (digitGroup? ds).map (fun g => Int.ofNat (digitsToNat g))

/-- Optional exponent part `e<sign><digits>` of a float literal, applied
to the decimal `m`. -/
def pyExp? (cs : List Char) (m : Dec) : Option Dec :=
  match cs with
  | [] => some m
  | c :: rest =>
    if c == 'e' || c == 'E' then
      let (neg, ds) :=
        match rest with
        | '+' :: r => (false, r)
        | '-' :: r => (true, r)
        | r => (false, r)
      match digitGroup? ds with
      | some g =>
        let e := digitsToNat g
        some (if neg then ⟨m.num, m.scale + e⟩ else ⟨m.num * (10 : Int) ^ e, m.scale⟩)
      | Option.none => Option.none
    else Option.none

/-- Unsigned decimal float body: `digits [. digits] [exp]` with at least
one digit present around the point; each digit run is a CPython digit
group (underscores allowed between digits). -/
def pyUFloat? (cs : List Char) : Option Dec :=
  let (ip, rest) := spanDigitsUnd cs
  match rest with
  | '.' :: rest2 =>
    let (fp, rest3) := spanDigitsUnd rest2
    if ip.isEmpty && fp.isEmpty then Option.none
    else pyExp? rest3 ⟨Int.ofNat (digitsToNat (ip ++ fp)), fp.length⟩
  | _ => if ip.isEmpty then Option.none else pyExp? rest ⟨Int.ofNat (digitsToNat ip), 0⟩

/-- Model of Python `float(str)` on finite decimal literals (the protocol
only ever carries those; `inf`/`nan` spellings are not modelled). -/
def pyFloat? (s : String) : Option Dec :=
  match (stripWS s).data with
  | '+' :: cs => pyUFloat? cs
  | '-' :: cs => (pyUFloat? cs).map (fun q => ⟨-q.num, q.scale⟩)
  | cs => pyUFloat? cs

/-- Left-pad with `0` to width `w`. -/
def padZeros (w : Nat) (s : String) : String :=
  String.mk (List.replicate (w - s.length) '0') ++ s

/-- Model of the `'%f'` mask: six digits after the decimal point, rounding
half up (exact for arguments that are multiples of `10 ^ (-6)`, which
covers every value the catalog formats in the claims). -/
def formatF (q : Dec) : String :=
  let m : Nat := q.num.natAbs
  let d : Nat := 10 ^ q.scale
  let scaled : Nat := (2 * m * 1000000 + d) / (2 * d)
  (if q.num < 0 then "-" else "") ++ toString (scaled / 1000000) ++ "." ++
    padZeros 6 (toString (scaled % 1000000))

/-- `str()` of a float: the six-decimal rendering with trailing zeros
trimmed (keeping one fractional digit) -- exact for six-decimal values.
Only used for `String`-typed catalog slots fed a float, which no claim
exercises. -/
def formatFloatRepr (q : Dec) : String :=
  let rev := (formatF q).data.reverse.dropWhile (fun c => c == '0')
  let rev2 := match rev with
    | '.' :: _ => '0' :: rev
    | _ => rev
  String.mk rev2.reverse

/-- Python `int(float)` truncates toward zero. -/
def truncDec (q : Dec) : Int :=
  let t : Nat := q.num.natAbs / 10 ^ q.scale
  if q.num < 0 then -(Int.ofNat t) else Int.ofNat t

/-! ### `IOWorker.convert_result` / `parse_result` (src/mplayer.py:60-74) -/

/-- `IOWorker.convert_result`: try `int(value)`, then `float(value)`, then
`None` for the literal `(null)` token, else the decoded string.  Total:
a value that fails every coercion degrades to text, never to an error. -/
def convert_result (value : String) : Value :=
  match pyInt? value with
  | some n => Value.int n
  | Option.none =>
    match pyFloat? value with
    | some q => Value.float q
    | Option.none =>
      if value = "(null)" then Value.null
      else Value.str value

/-- `IOWorker.parse_result`: take the text after `=`, strip quoting and the
trailing newline (`value.strip(b"'\n")`), and coerce. -/
def parse_result (line : String) : Value :=
  convert_result (stripChars [squote, '\n'] (afterEq line))

/-! ### The worker state machine (IOWorker, src/mplayer.py:28-129) -/

/-- The observable state of the `IOWorker` process.
`pending` is the deque of defaults of outstanding calls, head = left end
(`appendleft` pushes at the head, `pop` removes the last element).
`writes`, `results`, `notes` accumulate the lines written to the
subprocess stdin, the values put on the results queue, and the state
notifications, in order.  `skipLine` models being inside the seek-echo
branch (line 127): the next stdout line will be read and discarded. -/
structure WState where
  state : PlayState
  loading : Bool
  pending : List Value
  writes : List String
  results : List Value
  notes : List PlayState
  skipLine : Bool
deriving DecidableEq, Repr

/-- `self.pending.pop()`: remove and return the element at the right end;
`Option.none` models the `IndexError` raised on an empty deque. -/
def popLedger (s : WState) : Option (Value × WState) :=
  match s.pending.getLast? with
  | some d => some (d, { s with pending := s.pending.dropLast })
  | Option.none => Option.none

/-- `IOWorker.send_result` (lines 76-82): pop the ledger, and put `value`
on the results queue -- unless `value` is the *in-band* string sentinel
`'blank'` (the Python parameter's default), in which case the popped
entry itself is emitted (`if value == 'blank': value = default`,
line 79).  The sentinel check is an ordinary string comparison, so a
parsed answer value that happens to be the text `blank` also triggers
it. -/
def send_result (s : WState) (value : Value) : Option WState :=
  match popLedger s with
  | some (d, s') =>
    some { s' with results :=
      s'.results ++ [if value = Value.str "blank" then d else value] }
  | Option.none => Option.none

/-- `IOWorker.send_default` (lines 84-86): `self.send_result()`, i.e.
`send_result` at its default parameter, the `'blank'` sentinel. -/
def send_default (s : WState) : Option WState := send_result s (Value.str "blank")

/-- `IOWorker.set_state` (lines 48-58): return unchanged on a redundant
transition; otherwise store the new state, synthesize the pending default
when stopping with a non-empty ledger (`if value == STOPPED and
self.pending`), and emit the notification.  The `getD` is never taken:
`send_default` succeeds exactly when the guard's `self.pending` is
non-empty. -/
def set_state (s : WState) (value : PlayState) : WState :=
  if value = s.state then s
  else
    let s1 := { s with state := value }
    let s2 :=
      if value = PlayState.stopped ∧ s1.pending ≠ [] then (send_default s1).getD s1
      else s1
    { s2 with notes := s2.notes ++ [value] }

/-- `'%s %s\n' % (pre, cmd)` (line 100). -/
def renderCall (pre cmd : String) : String := pre ++ " " ++ cmd ++ "\n"

/-- The `if self.calls in r` branch of `IOWorker.run` (lines 98-115):
push the default (`appendleft`, line 102), then classify.  A `get`
command is answered synthetically while `STOPPED` or loading, otherwise
written and left outstanding; a non-`get` command toggles on `pause`,
sets `loading` on `loadfile`, is always written, and is resolved
synchronously with `None`. -/
def handleCall (s : WState) (pre cmd : String) (default : Value) : Option WState :=
  let s1 := { s with pending := default :: s.pending }
  if startswith cmd "get" then
    if s1.state = PlayState.stopped ∨ s1.loading then
      send_default s1
    else
      some { s1 with writes := s1.writes ++ [renderCall pre cmd] }
  else
    let s2 :=
      if startswith cmd "pause" ∧ (s1.state = PlayState.paused ∨ s1.state = PlayState.playing) then
        set_state s1 (if s1.state = PlayState.playing then PlayState.paused else PlayState.playing)
      else if startswith cmd "loadfile" then
        { s1 with loading := true }
      else s1
    let s3 := { s2 with writes := s2.writes ++ [renderCall pre cmd] }
    send_result s3 Value.null

/-- The `if self.stdout in r` branch of `IOWorker.run` (lines 117-129):
classify one subprocess output line.  When `skipLine` is set the line is
the seek-echo follower and is discarded (the synchronous extra
`readline()` of line 127). -/
def handleLine (s : WState) (line : String) : Option WState :=
  if s.skipLine then
    some { s with skipLine := false }
  else if startswith line "Starting play" then
    some { (set_state s PlayState.playing) with loading := false }
  else if line = "\n" then
    some (set_state s PlayState.stopped)
  else if startswith line "\x1b[A\r\x1b[KPosition" then
    some { s with skipLine := true }
  else if startswith line "ANS" then
    send_result s (parse_result line)
  else
    some s

/-- One readiness event of the select loop: a call dequeued from the call
queue, or a line read from the subprocess stdout. -/
inductive Event where
  | call (pre cmd : String) (default : Value)
  | line (text : String)
deriving DecidableEq, Repr

/-- Run the worker over an interleaved trace of readiness events
(one event per loop iteration, as `select` delivers them).
`Option.none` propagates a worker crash (unhandled `IndexError`). -/
def runEvents : WState → List Event → Option WState
  | s, [] => some s
  | s, Event.call p c d :: rest =>
    match handleCall s p c d with
    | some s' => runEvents s' rest
    | Option.none => Option.none
  | s, Event.line l :: rest =>
    match handleLine s l with
    | some s' => runEvents s' rest
    | Option.none => Option.none

/-! ### The front-end proxy (MPlayer, src/mplayer.py:132-208) -/

/-- Encoder failures: a coercion/arity `ValueError` (caught and re-raised
with the expected signature, line 200) or an unknown-type `KeyError`. -/
inductive EncodeErr where
  | valueError
  | keyError
deriving DecidableEq, Repr

/-- Failures surfaced by `MPlayer.send_cmd`. -/
inductive CallErr where
  | notRunning
  | valueError
  | keyError
deriving DecidableEq, Repr

/-- The message placed on the call queue: `[prefix, cmd, default]`
(line 207). -/
structure CallMsg where
  pre : String
  cmd : String
  default : Value
deriving DecidableEq, Repr

/-- `MPlayer.arg_types` (lines 133-137): per declared type name, the
coercion composed with the rendering mask (`'"%s"'`, `'%f'`, `'%d'`). -/
def arg_types : List (String × (PyVal → Option String)) :=
  [ ("String", fun a =>
      (match a with
       | PyVal.str t => some t
       | PyVal.int n => some (toString n)
       | PyVal.float q => some (formatFloatRepr q)).map (fun r => "\"" ++ r ++ "\"")),
    ("Float", fun a =>
      (match a with
       | PyVal.int n => some (⟨n, 0⟩ : Dec)
       | PyVal.float q => some q
       | PyVal.str t => pyFloat? t).map formatF),
    ("Integer", fun a =>
      (match a with
       | PyVal.int n => some n
       | PyVal.float q => some (truncDec q)
       | PyVal.str t => pyInt? t).map (fun n => toString n)) ]

/-- `MPlayer.process_args` (lines 193-200), from argument index `i`:
look up the declared slot (`IndexError` becomes the re-raised
`ValueError`), strip the `[]` optionality marker, coerce and render
(`ValueError` on a failed coercion, `KeyError` on an unknown type name,
which the `except` clause does not catch). -/
def process_args_from (sig : List String) : Nat → List PyVal → Except EncodeErr (List String)
  | _, [] => Except.ok []
  | i, a :: rest =>
    match sig.get? i with
    | Option.none => Except.error EncodeErr.valueError
    | some t =>
      match arg_types.lookup (stripChars ['[', ']'] t) with
      | Option.none => Except.error EncodeErr.keyError
      | some render =>
        match render a with
        | Option.none => Except.error EncodeErr.valueError
        | some r =>
          match process_args_from sig (i + 1) rest with
          | Except.ok rs => Except.ok (r :: rs)
          | Except.error e => Except.error e

def process_args (sig : List String) (args : List PyVal) : Except EncodeErr (List String) :=
  process_args_from sig 0 args

/-- Python truthiness of `Popen.poll()`: `None` (still running) is falsy,
and so is exit status `0`. -/
def pollTruthy : Option Int → Bool
  | Option.none => false
  | some c => c != 0

/-- `MPlayer.send_cmd` (lines 202-208): the liveness check
`if self.poll(): raise MPlayerNotRunning`, the per-call / process-wide
fallbacks for the response `prefix` and the `default`, encoding, and the
message enqueued on the call queue.  (The subsequent blocking
`results.get()` is the proxy side of the result channel and adds
nothing to the enqueued message.) -/
def send_cmd (cmds : List (String × List String)) (dpre : Option String)
    (ddef : Option Value) (poll : Option Int) (cmd : String) (args : List PyVal)
    (kpre : Option String) (kdef : Option Value) : Except CallErr CallMsg :=
  if pollTruthy poll then Except.error CallErr.notRunning
  else
    match cmds.lookup cmd with
    | Option.none => Except.error CallErr.keyError
    | some sig =>
      match process_args sig args with
      | Except.error EncodeErr.valueError => Except.error CallErr.valueError
      | Except.error EncodeErr.keyError => Except.error CallErr.keyError
      | Except.ok rendered =>
        Except.ok ⟨kpre.getD (dpre.getD ""), cmd ++ " " ++ joinSpace rendered,
          kdef.getD (ddef.getD Value.null)⟩

-- Sanity checks: the embedded primitives compute as the Python originals do.
example : formatF ⟨105, 1⟩ = "10.500000" := by decide
example : pyInt? " 12 " = some 12 := by decide
example : pyFloat? "12.5" = some ⟨125, 1⟩ := by decide
example : parse_result ("ANS_x=" ++ String.mk [squote] ++ "abc" ++ String.mk [squote] ++ "\n")
    = Value.str "abc" := by decide
example : convert_result "(null)" = Value.null := by decide
example : pyInt? "1_2" = some 12 := by decide
example : pyInt? "1__2" = Option.none := by decide
example : pyInt? "_12" = Option.none := by decide
example : pyInt? "12_" = Option.none := by decide
example : pyFloat? "1_0.5" = some ⟨105, 1⟩ := by decide
example : pyFloat? "1.e2" = some ⟨100, 0⟩ := by decide
example : convert_result "blank" = Value.str "blank" := by decide
example : (Value.int 3 :: [Value.int 5]).getLast? = some (Value.int 5) := by decide

/-! ### Concrete states used by witnesses and counterexamples -/

/-- A fresh worker that has observed the start of playback. -/
def wPlay : WState := ⟨PlayState.playing, false, [], [], [], [], false⟩

/-- Playing, with one query outstanding (default `5`). -/
def wOne : WState := ⟨PlayState.playing, false, [Value.int 5], [], [], [], false⟩

/-- A fresh worker in the initial `STOPPED` state. -/
def wStop : WState := ⟨PlayState.stopped, false, [], [], [], [], false⟩

/-! ### Helper lemmas -/

/-- Two prefixes of one list are comparable. -/
theorem chPre_comparable : ∀ (l p q : List Char),
    chPre p l = true → chPre q l = true → chPre p q = true ∨ chPre q p = true := by
  intro l
  induction l with
  | nil =>
    intro p q hp hq
    cases p with
    | nil => exact Or.inl rfl
    | cons a as => simp [chPre] at hp
  | cons c cs ih =>
    intro p q hp hq
    cases p with
    | nil => exact Or.inl rfl
    | cons a as =>
      cases q with
      | nil => exact Or.inr rfl
      | cons b bs =>
        simp only [chPre, Bool.and_eq_true, beq_iff_eq] at hp hq
        rcases ih as bs hp.2 hq.2 with h | h
        · exact Or.inl (by simp [chPre, hp.1, hq.1, h])
        · exact Or.inr (by simp [chPre, hp.1, hq.1, h])

/-- If `s` starts with `p`, and neither of `p` and `q` is a prefix of the
other, then `s` does not start with `q`. -/
theorem startswith_excl {s : String} (p q : String) (h : startswith s p = true)
    (hpq : chPre p.data q.data = false) (hqp : chPre q.data p.data = false) :
    startswith s q = false := by
  unfold startswith at *
  cases hq : chPre q.data s.data with
  | false => rfl
  | true =>
    rcases chPre_comparable s.data p.data q.data h hq with hc | hc
    · rw [hpq] at hc; cases hc
    · rw [hqp] at hc; cases hc

/-- A non-empty list has a last element. -/
theorem getLast?_cons_some (d : Value) (l : List Value) :
    ∃ w, (d :: l).getLast? = some w := by
  induction l generalizing d with
  | nil => exact ⟨d, rfl⟩
  | cons x xs ih =>
    obtain ⟨w, hw⟩ := ih x
    exact ⟨w, by rw [List.getLast?_cons_cons]; exact hw⟩

/-- `send_result` pops the element at the right end of the deque -- the
least recently pushed entry -- and emits `x` (or, when `x` is the in-band
`'blank'` sentinel string, the popped default itself). -/
theorem send_result_eq (s : WState) (x : Value) (w : Value)
    (hw : s.pending.getLast? = some w) :
    send_result s x =
      some { s with
             pending := s.pending.dropLast,
             results := s.results ++ [if x = Value.str "blank" then w else x] } := by
  simp only [send_result, popLedger, hw]

/-- Whatever `send_result` does, it only touches `pending` and `results`. -/
theorem send_result_frame (s : WState) (x : Value) (s' : WState)
    (h : send_result s x = some s') :
    s'.state = s.state ∧ s'.loading = s.loading ∧ s'.writes = s.writes ∧
    s'.notes = s.notes ∧ s'.skipLine = s.skipLine ∧
    s'.pending = s.pending.dropLast := by
  unfold send_result popLedger at h
  cases hg : s.pending.getLast? with
  | none => rw [hg] at h; simp at h
  | some w =>
    rw [hg] at h
    simp only [Option.some.injEq] at h
    subst h
    exact ⟨rfl, rfl, rfl, rfl, rfl, rfl⟩

/-- A transition into a state other than the current one lands there. -/
theorem set_state_state_of_ne (s : WState) (v : PlayState) (h : v ≠ s.state) :
    (set_state s v).state = v := by
  unfold set_state
  rw [if_neg h]
  by_cases hc : v = PlayState.stopped ∧ s.pending ≠ []
  · simp only [if_pos hc]
    cases hd : send_default ({ s with state := v }) with
    | none => simp [Option.getD]
    | some t =>
      obtain ⟨ht, -⟩ := send_result_frame _ _ _ hd
      simp [Option.getD, ht]
  · simp only [if_neg hc]

/-- A transition into `PLAYING` or `PAUSED` never pops the ledger and
leaves every field except `state` and `notes` unchanged. -/
theorem set_state_frame_of_ne_stopped (s : WState) (v : PlayState)
    (hv : v ≠ PlayState.stopped) :
    (set_state s v).pending = s.pending ∧ (set_state s v).writes = s.writes ∧
    (set_state s v).results = s.results ∧ (set_state s v).loading = s.loading ∧
    (set_state s v).skipLine = s.skipLine := by
  unfold set_state
  by_cases he : v = s.state
  · rw [if_pos he]; exact ⟨rfl, rfl, rfl, rfl, rfl⟩
  · rw [if_neg he]
    have hc : ¬(v = PlayState.stopped ∧ ({ s with state := v } : WState).pending ≠ []) := by
      intro hk; exact hv hk.1
    simp [hc]

-- Sanity checks: kernel reduction of ledger primitives and a full trace.
example (d : Value) : ([d] : List Value).getLast? = some d := rfl
example (d : Value) : ([d] : List Value).dropLast = [] := rfl
example : startswith "\n" "Starting play" = false := by decide
example : runEvents wPlay
    [Event.call "" "get_a " (Value.int 1), Event.call "" "get_b " (Value.int 2),
     Event.line "\n"]
    = some ⟨PlayState.stopped, false, [Value.int 2], [" get_a \n", " get_b \n"],
        [Value.int 1], [PlayState.stopped], false⟩ := by decide

/-! ### Claim theorems -/

/-- C5: a state notification is put on the notification channel for every
transition except when the new state equals the current one; a same-state
transition emits nothing and leaves the whole worker state unchanged
(`IOWorker.set_state`, lines 48-58). -/
theorem state_notify_rule (s : WState) (v : PlayState) :
    (v = s.state → set_state s v = s) ∧
    (v ≠ s.state →
      (set_state s v).state = v ∧ (set_state s v).notes = s.notes ++ [v]) := by
  constructor
  · intro h
    unfold set_state
    rw [if_pos h]
  · intro h
    refine ⟨set_state_state_of_ne s v h, ?_⟩
    unfold set_state
    rw [if_neg h]
    by_cases hc : v = PlayState.stopped ∧ ({ s with state := v } : WState).pending ≠ []
    · simp only [if_pos hc]
      cases hd : send_default { s with state := v } with
      | none => simp
      | some t =>
        obtain ⟨-, -, -, hn, -, -⟩ := send_result_frame _ _ _ hd
        simp [hn]
    · simp only [if_neg hc]

/-- Witness for C5: a PLAYING → PAUSED transition stores the new state and
emits exactly one notification. -/
theorem state_notify_rule_witness :
    (set_state wPlay PlayState.paused).state = PlayState.paused ∧
    (set_state wPlay PlayState.paused).notes = wPlay.notes ++ [PlayState.paused] :=
  (state_notify_rule wPlay PlayState.paused).2 (by decide)

/-- C10: one observed stop announcement (the empty line `"\n"`) pops at
most one ledger entry: when the worker is already STOPPED the transition
is a no-op (nothing popped, nothing emitted), and otherwise exactly the
rightmost entry -- if any -- is popped and synthesized, every other
outstanding entry staying on the ledger
(`IOWorker.set_state` lines 48-58, `IOWorker.run` lines 124-125). -/
theorem stop_pops_at_most_one (s : WState) (hskip : s.skipLine = false) :
    (s.state = PlayState.stopped → handleLine s "\n" = some s) ∧
    (s.state ≠ PlayState.stopped →
      handleLine s "\n" =
        some { s with
               state := PlayState.stopped,
               pending := s.pending.dropLast,
               results := s.results ++ s.pending.getLast?.toList,
               notes := s.notes ++ [PlayState.stopped] }) := by
  have h1 : startswith "\n" "Starting play" = false := by decide
  have key : handleLine s "\n" = some (set_state s PlayState.stopped) := by
    simp [handleLine, hskip, h1]
  constructor
  · intro h
    rw [key]
    unfold set_state
    rw [if_pos h.symm]
  · intro h
    rw [key]
    unfold set_state
    rw [if_neg (fun he => h he.symm)]
    dsimp only
    cases hp : s.pending with
    | nil => simp
    | cons d rest =>
      obtain ⟨w, hw⟩ := getLast?_cons_some d rest
      unfold send_default
      rw [send_result_eq ⟨PlayState.stopped, s.loading, d :: rest, s.writes,
        s.results, s.notes, s.skipLine⟩ (Value.str "blank") w hw]
      simp [hw]

/-- Witness for C10: stopping while PLAYING with one outstanding query pops
that single entry; stopping while already STOPPED is a no-op. -/
theorem stop_pops_at_most_one_witness :
    handleLine wOne "\n" =
      some { wOne with
             state := PlayState.stopped,
             pending := wOne.pending.dropLast,
             results := wOne.results ++ wOne.pending.getLast?.toList,
             notes := wOne.notes ++ [PlayState.stopped] } :=
  (stop_pops_at_most_one wOne rfl).2 (by decide)

/-- C6: when the stop announcement (the empty line) arrives with exactly
one query outstanding, that query's default is emitted as a result exactly
once -- the entry leaves the ledger, so no later stop announcement can
resolve it again (the second conjunct: a repeated stop announcement
returns the worker unchanged and emits nothing)
(`IOWorker.set_state` lines 53-58, `IOWorker.run` lines 124-125). -/
theorem stop_resolves_once (s : WState) (d : Value) (hskip : s.skipLine = false)
    (hst : s.state ≠ PlayState.stopped) (hp : s.pending = [d]) :
    handleLine s "\n" =
      some { s with
             state := PlayState.stopped,
             pending := [],
             results := s.results ++ [d],
             notes := s.notes ++ [PlayState.stopped] } ∧
    handleLine { s with
                 state := PlayState.stopped,
                 pending := [],
                 results := s.results ++ [d],
                 notes := s.notes ++ [PlayState.stopped] } "\n" =
      some { s with
             state := PlayState.stopped,
             pending := [],
             results := s.results ++ [d],
             notes := s.notes ++ [PlayState.stopped] } := by
  have h1 : startswith "\n" "Starting play" = false := by decide
  constructor
  · have key : handleLine s "\n" = some (set_state s PlayState.stopped) := by
      simp [handleLine, hskip, h1]
    rw [key]
    unfold set_state
    rw [if_neg (fun he => hst he.symm)]
    dsimp only
    rw [hp]
    unfold send_default
    rw [send_result_eq ⟨PlayState.stopped, s.loading, [d], s.writes,
      s.results, s.notes, s.skipLine⟩ (Value.str "blank") d rfl]
    simp
  · have key2 : handleLine { s with
        state := PlayState.stopped,
        pending := [],
        results := s.results ++ [d],
        notes := s.notes ++ [PlayState.stopped] } "\n" =
        some (set_state { s with
          state := PlayState.stopped,
          pending := [],
          results := s.results ++ [d],
          notes := s.notes ++ [PlayState.stopped] } PlayState.stopped) := by
      simp [handleLine, hskip, h1]
    rw [key2]
    unfold set_state
    rw [if_pos rfl]

/-- Witness for C6: one outstanding query with default `5`, playback stops:
the default is emitted once, and a second stop announcement changes
nothing. -/
theorem stop_resolves_once_witness :
    handleLine wOne "\n" =
      some { wOne with
             state := PlayState.stopped,
             pending := [],
             results := wOne.results ++ [Value.int 5],
             notes := wOne.notes ++ [PlayState.stopped] } ∧
    handleLine { wOne with
                 state := PlayState.stopped,
                 pending := [],
                 results := wOne.results ++ [Value.int 5],
                 notes := wOne.notes ++ [PlayState.stopped] } "\n" =
      some { wOne with
             state := PlayState.stopped,
             pending := [],
             results := wOne.results ++ [Value.int 5],
             notes := wOne.notes ++ [PlayState.stopped] } :=
  stop_resolves_once wOne (Value.int 5) rfl (by decide) rfl

/-- C2 (amended): dispatching a `get` command while STOPPED or loading
emits a synthetic result immediately -- nothing is written to the
subprocess (`writes` is unchanged in the record) -- but the synthesized
value is the entry at the right end of the deque after the push, i.e. the
*least recently* pushed outstanding default; it is the call's own default
exactly when no other call is outstanding (`IOWorker.run` lines 102-105). -/
theorem query_synth_default (s : WState) (p c : String) (d w : Value)
    (hc : startswith c "get" = true)
    (hsl : s.state = PlayState.stopped ∨ s.loading = true)
    (hw : (d :: s.pending).getLast? = some w) :
    handleCall s p c d =
      some { s with
             pending := (d :: s.pending).dropLast,
             results := s.results ++ [w] } := by
  unfold handleCall
  dsimp only
  rw [if_pos hc, if_pos hsl]
  unfold send_default
  rw [send_result_eq ⟨s.state, s.loading, d :: s.pending, s.writes,
    s.results, s.notes, s.skipLine⟩ (Value.str "blank") w hw]
  simp

/-- Witness for C2: a query dispatched to a freshly stopped worker with an
empty ledger resolves at once with its own default `7`, writing nothing. -/
theorem query_synth_default_witness :
    handleCall wStop "" "get_time_pos " (Value.int 7) =
      some { wStop with
             pending := (Value.int 7 :: wStop.pending).dropLast,
             results := wStop.results ++ [Value.int 7] } :=
  query_synth_default wStop "" "get_time_pos " (Value.int 7) (Value.int 7)
    (by decide) (Or.inl rfl) rfl

/-- C2 counterexample: the claim says the call resolves "with its default
value".  Trace: two queries (defaults `1`, `2`) dispatched while PLAYING,
then the stop announcement (which synthesizes `1`), then a third query
with default `3` dispatched while STOPPED.  The third call's synthetic
result is `2` -- the oldest outstanding default -- not its own default
`3`, which instead stays on the ledger. -/
theorem query_default_counterexample :
    runEvents wPlay
      [Event.call "" "get_a " (Value.int 1), Event.call "" "get_b " (Value.int 2),
       Event.line "\n", Event.call "" "get_c " (Value.int 3)]
      = some ⟨PlayState.stopped, false, [Value.int 3], [" get_a \n", " get_b \n"],
          [Value.int 1, Value.int 2], [PlayState.stopped], false⟩ ∧
    Value.int 2 ≠ Value.int 3 := by decide

/-- C3: a non-`get` command is always written to the subprocess (the
rendered `"<pre> <cmd>\n"` line is appended to `writes`) and a `null`
result is emitted in the same dispatch step -- synchronously, consuming no
subprocess output event (`IOWorker.run` lines 108-115,
`self.send_result(None)`). -/
theorem nonquery_sync_null (s : WState) (p c : String) (d : Value)
    (hc : startswith c "get" = false) :
    ∃ s', handleCall s p c d = some s' ∧
      s'.writes = s.writes ++ [renderCall p c] ∧
      s'.results = s.results ++ [Value.null] := by
  obtain ⟨w, hw⟩ := getLast?_cons_some d s.pending
  unfold handleCall
  dsimp only
  rw [if_neg (by simp [hc])]
  by_cases hp : startswith c "pause" = true ∧
      (s.state = PlayState.paused ∨ s.state = PlayState.playing)
  · rw [if_pos hp]
    have hv : (if s.state = PlayState.playing then PlayState.paused
        else PlayState.playing) ≠ PlayState.stopped := by
      by_cases h : s.state = PlayState.playing <;> simp [h]
    obtain ⟨hpend, hwr, hres, -, -⟩ := set_state_frame_of_ne_stopped
      ⟨s.state, s.loading, d :: s.pending, s.writes, s.results, s.notes, s.skipLine⟩
      (if s.state = PlayState.playing then PlayState.paused else PlayState.playing) hv
    refine ⟨_, send_result_eq _ Value.null w ?_, ?_, ?_⟩
    · dsimp only
      rw [hpend]
      exact hw
    · dsimp only
      rw [hwr]
    · dsimp only
      rw [hres]
      simp
  · rw [if_neg hp]
    by_cases hl : startswith c "loadfile" = true
    · rw [if_pos hl]
      rw [send_result_eq ⟨s.state, true, d :: s.pending, s.writes ++ [renderCall p c],
        s.results, s.notes, s.skipLine⟩ Value.null w hw]
      exact ⟨_, rfl, by simp, by simp⟩
    · rw [if_neg hl]
      rw [send_result_eq ⟨s.state, s.loading, d :: s.pending, s.writes ++ [renderCall p c],
        s.results, s.notes, s.skipLine⟩ Value.null w hw]
      exact ⟨_, rfl, by simp, by simp⟩

/-- Witness for C3: the `stop ` command on a playing worker is written and
resolves with `null` in the same step. -/
theorem nonquery_sync_null_witness :
    ∃ s', handleCall wPlay "" "stop " Value.null = some s' ∧
      s'.writes = wPlay.writes ++ [renderCall "" "stop "] ∧
      s'.results = wPlay.results ++ [Value.null] :=
  nonquery_sync_null wPlay "" "stop " Value.null (by decide)

/-- C4: a `pause` command dispatched while PLAYING or PAUSED flips the
playback state client-side (PLAYING→PAUSED, PAUSED→PLAYING) within the
dispatch step itself -- no subprocess output line is involved
(`IOWorker.run` lines 109-110). -/
theorem toggle_flip (s : WState) (p c : String) (d : Value)
    (hc : startswith c "pause" = true)
    (hs : s.state = PlayState.playing ∨ s.state = PlayState.paused) :
    ∃ s', handleCall s p c d = some s' ∧
      s'.state = (if s.state = PlayState.playing then PlayState.paused
        else PlayState.playing) := by
  have hget : startswith c "get" = false :=
    startswith_excl "pause" "get" hc (by decide) (by decide)
  obtain ⟨w, hw⟩ := getLast?_cons_some d s.pending
  unfold handleCall
  dsimp only
  rw [if_neg (by simp [hget])]
  have hp : startswith c "pause" = true ∧
      (s.state = PlayState.paused ∨ s.state = PlayState.playing) := ⟨hc, hs.symm⟩
  rw [if_pos hp]
  have hv : (if s.state = PlayState.playing then PlayState.paused
      else PlayState.playing) ≠ PlayState.stopped := by
    by_cases h : s.state = PlayState.playing <;> simp [h]
  have hvne : (if s.state = PlayState.playing then PlayState.paused
      else PlayState.playing) ≠
      (⟨s.state, s.loading, d :: s.pending, s.writes, s.results, s.notes,
        s.skipLine⟩ : WState).state := by
    rcases hs with h | h <;> simp [h]
  have hstate := set_state_state_of_ne
    ⟨s.state, s.loading, d :: s.pending, s.writes, s.results, s.notes, s.skipLine⟩ _ hvne
  obtain ⟨hpend, -, -, -, -⟩ := set_state_frame_of_ne_stopped
    ⟨s.state, s.loading, d :: s.pending, s.writes, s.results, s.notes, s.skipLine⟩
    (if s.state = PlayState.playing then PlayState.paused else PlayState.playing) hv
  refine ⟨_, send_result_eq _ Value.null w ?_, ?_⟩
  · dsimp only
    rw [hpend]
    exact hw
  · dsimp only
    rw [hstate]

/-- Witness for C4: `pause ` while PLAYING lands in PAUSED. -/
theorem toggle_flip_witness :
    ∃ s', handleCall wPlay "" "pause " Value.null = some s' ∧
      s'.state = (if wPlay.state = PlayState.playing then PlayState.paused
        else PlayState.playing) :=
  toggle_flip wPlay "" "pause " Value.null (by decide) (Or.inl rfl)

/-- C1 (amended): each call's default is pushed onto the ledger at
dispatch time before any possible answer -- in every branch of the
dispatch step the resulting ledger is either `default :: pending` (query
left outstanding) or `(default :: pending).dropLast` (answered
immediately) -- but the ledger is FIFO, not LIFO: `appendleft` pushes at
the left end and `pop` removes the right end, so every pop (second
conjunct, `send_result`) removes the entry of the *least* recently
dispatched still-unanswered call, emitting the value passed in (the
popped entry itself when the value is the `'blank'` sentinel)
(`IOWorker.run` line 102, `IOWorker.send_result` lines 78-80). -/
theorem ledger_fifo (s : WState) (p c : String) (d : Value) (v : Value)
    (w : Value) (hw : s.pending.getLast? = some w) :
    (∃ s', handleCall s p c d = some s' ∧
       (s'.pending = d :: s.pending ∨ s'.pending = (d :: s.pending).dropLast)) ∧
    send_result s v =
      some { s with
             pending := s.pending.dropLast,
             results := s.results ++ [if v = Value.str "blank" then w else v] } := by
  refine ⟨?_, send_result_eq s v w hw⟩
  obtain ⟨w2, hw2⟩ := getLast?_cons_some d s.pending
  unfold handleCall
  dsimp only
  by_cases hg : startswith c "get" = true
  · rw [if_pos hg]
    by_cases hsl : s.state = PlayState.stopped ∨ s.loading = true
    · rw [if_pos hsl]
      unfold send_default
      rw [send_result_eq ⟨s.state, s.loading, d :: s.pending, s.writes, s.results,
        s.notes, s.skipLine⟩ (Value.str "blank") w2 hw2]
      exact ⟨_, rfl, Or.inr rfl⟩
    · rw [if_neg hsl]
      exact ⟨_, rfl, Or.inl rfl⟩
  · rw [if_neg hg]
    by_cases hp : startswith c "pause" = true ∧
        (s.state = PlayState.paused ∨ s.state = PlayState.playing)
    · rw [if_pos hp]
      have hv : (if s.state = PlayState.playing then PlayState.paused
          else PlayState.playing) ≠ PlayState.stopped := by
        by_cases h : s.state = PlayState.playing <;> simp [h]
      obtain ⟨hpend, -, -, -, -⟩ := set_state_frame_of_ne_stopped
        ⟨s.state, s.loading, d :: s.pending, s.writes, s.results, s.notes, s.skipLine⟩
        (if s.state = PlayState.playing then PlayState.paused else PlayState.playing) hv
      refine ⟨_, send_result_eq _ Value.null w2 ?_, ?_⟩
      · dsimp only
        rw [hpend]
        exact hw2
      · dsimp only
        rw [hpend]
        exact Or.inr rfl
    · rw [if_neg hp]
      by_cases hl : startswith c "loadfile" = true
      · rw [if_pos hl]
        rw [send_result_eq ⟨s.state, true, d :: s.pending, s.writes ++ [renderCall p c],
          s.results, s.notes, s.skipLine⟩ Value.null w2 hw2]
        exact ⟨_, rfl, Or.inr rfl⟩
      · rw [if_neg hl]
        rw [send_result_eq ⟨s.state, s.loading, d :: s.pending,
          s.writes ++ [renderCall p c], s.results, s.notes, s.skipLine⟩
          Value.null w2 hw2]
        exact ⟨_, rfl, Or.inr rfl⟩

/-- Witness for C1 (amended): with default `5` outstanding, dispatching a
second query pushes its default `9` at the head, and a pop removes the
right end (`5`). -/
theorem ledger_fifo_witness :
    (∃ s', handleCall wOne "" "get_x " (Value.int 9) = some s' ∧
       (s'.pending = Value.int 9 :: wOne.pending ∨
        s'.pending = (Value.int 9 :: wOne.pending).dropLast)) ∧
    send_result wOne Value.null =
      some { wOne with
             pending := wOne.pending.dropLast,
             results := wOne.results ++
               [if Value.null = Value.str "blank" then Value.int 5
                else Value.null] } :=
  ledger_fifo wOne "" "get_x " (Value.int 9) Value.null (Value.int 5) rfl

/-- C1 counterexample: two queries dispatched while PLAYING (defaults `1`
then `2`), then the stop announcement pops the ledger.  The synthesized
entry is `1`, belonging to the *least* recently dispatched call, while the
most recently dispatched call's default `2` is still pending -- under the
claimed LIFO order the popped entry would have been `2`. -/
theorem ledger_lifo_counterexample :
    runEvents wPlay
      [Event.call "" "get_a " (Value.int 1), Event.call "" "get_b " (Value.int 2),
       Event.line "\n"]
      = some ⟨PlayState.stopped, false, [Value.int 2], [" get_a \n", " get_b \n"],
          [Value.int 1], [PlayState.stopped], false⟩ ∧
    Value.int 1 ≠ Value.int 2 := by decide

/-- C8 (amended): an `ANS`-tagged output line pops the ledger and emits
as the Result the text after `=`, stripped of quoting and newline,
coerced to an integer, else a float, else `null` for the literal `(null)`
token, else the decoded string -- *unless* the parsed value is exactly
the text `blank`, the in-band sentinel of `send_result` (line 79), in
which case the popped default is emitted in its place; the second
conjunct: a value failing every numeric coercion and distinct from the
`(null)` token degrades to a text result -- `convert_result` is total,
never an error (`IOWorker.convert_result` lines 60-74, `IOWorker.run`
lines 128-129, `IOWorker.send_result` line 79). -/
theorem ans_parse_emit (s : WState) (l : String) (w : Value) (v : String)
    (hskip : s.skipLine = false) (hl : startswith l "ANS" = true)
    (hw : s.pending.getLast? = some w) :
    handleLine s l =
      some { s with
             pending := s.pending.dropLast,
             results := s.results ++
               [if parse_result l = Value.str "blank" then w
                else parse_result l] } ∧
    (pyInt? v = Option.none → pyFloat? v = Option.none → v ≠ "(null)" →
      convert_result v = Value.str v) := by
  constructor
  · have h1 : startswith l "Starting play" = false :=
      startswith_excl "ANS" "Starting play" hl (by decide) (by decide)
    have h2 : l ≠ "\n" := by
      intro he
      rw [he] at hl
      exact absurd hl (by decide)
    have h3 : startswith l "\x1b[A\r\x1b[KPosition" = false :=
      startswith_excl "ANS" "\x1b[A\r\x1b[KPosition" hl (by decide) (by decide)
    unfold handleLine
    rw [if_neg (by simp [hskip]), if_neg (by simp [h1]), if_neg h2,
      if_neg (by simp [h3]), if_pos hl]
    rw [send_result_eq s (parse_result l) w hw]
  · intro h1 h2 h3
    unfold convert_result
    rw [h1, h2, if_neg h3]

/-- Witness for C8 (amended): the answer line `ANS_x=` followed by
single-quoted `abc` and a newline resolves the outstanding query with the
decoded text `abc` (not the sentinel, so the parsed value itself is
emitted); `abc` fails every coercion and degrades to a string, not an
error. -/
theorem ans_parse_emit_witness :
    handleLine wOne
        ("ANS_x=" ++ String.mk [squote] ++ "abc" ++ String.mk [squote] ++ "\n") =
      some { wOne with
             pending := wOne.pending.dropLast,
             results := wOne.results ++
               [if parse_result ("ANS_x=" ++ String.mk [squote] ++ "abc" ++
                   String.mk [squote] ++ "\n") = Value.str "blank"
                then Value.int 5
                else parse_result ("ANS_x=" ++ String.mk [squote] ++ "abc" ++
                   String.mk [squote] ++ "\n")] } ∧
    convert_result "abc" = Value.str "abc" := by
  have h := ans_parse_emit wOne
    ("ANS_x=" ++ String.mk [squote] ++ "abc" ++ String.mk [squote] ++ "\n")
    (Value.int 5) "abc" rfl (by decide) rfl
  exact ⟨h.1, h.2 (by decide) (by decide) (by decide)⟩

/-- C8 counterexample: the answer line `ANS_x=blank` parses to the text
`blank`, which fails every coercion and is not the `(null)` token, so the
claim says the decoded text is emitted; but `blank` is `send_result`'s
in-band sentinel (`if value == 'blank': value = default`, line 79), so
the program emits the popped default `5` instead of the decoded text. -/
theorem ans_blank_counterexample :
    handleLine wOne "ANS_x=blank\n" =
      some ⟨PlayState.playing, false, [], [], [Value.int 5], [], false⟩ ∧
    parse_result "ANS_x=blank\n" = Value.str "blank" ∧
    Value.int 5 ≠ Value.str "blank" := by decide

/-- C7 (code bug): `send_cmd` guards liveness with `if self.poll():` --
Python truthiness -- so a supervised process that has already exited with
status `0` does *not* raise `MPlayerNotRunning`: the call is encoded and
enqueued anyway (first conjunct).  Only a non-zero exit status triggers
the error (second conjunct).  The claim's "if the process has already
exited, the call fails with NotRunning" is the evident intent
(`MPlayer.send_cmd` line 203). -/
theorem poll_zero_no_raise :
    send_cmd [("pause", [])] Option.none Option.none (some 0) "pause" []
      Option.none Option.none = Except.ok ⟨"", "pause ", Value.null⟩ ∧
    send_cmd [("pause", [])] Option.none Option.none (some 1) "pause" []
      Option.none Option.none = Except.error CallErr.notRunning := ⟨rfl, rfl⟩

/-- C9 counterexample: encoding `seek` with `[10.5]` against the catalog
`seek : [Float]` renders the command text `seek 10.500000`, but the line
actually written to the subprocess is `" seek 10.500000\n"` -- the worker
joins the (empty) response tag and the command with `'%s %s\n'`, so the
written line carries a leading space and is not `"seek 10.500000\n"`. -/
theorem seek_line_counterexample :
    (send_cmd [("seek", ["Float"])] Option.none Option.none Option.none "seek"
        [PyVal.float ⟨105, 1⟩] Option.none Option.none
      = Except.ok ⟨"", "seek 10.500000", Value.null⟩) ∧
    (handleCall wPlay "" "seek 10.500000" Value.null).map WState.writes
      = some [" seek 10.500000\n"] ∧
    " seek 10.500000\n" ≠ "seek 10.500000\n" :=
  ⟨rfl, by decide, by decide⟩

/-- C9 (amended): the encoding chain for `seek(10.5)` fixed-formats the
float (`%f`, six decimals), yielding command text `seek 10.500000` with
default `null` and empty response tag, and the worker writes the line
`" seek 10.500000\n"` (newline-terminated, with the leading space from
joining the empty tag) to the subprocess (`MPlayer.process_args` lines
193-200, `MPlayer.send_cmd` lines 202-207, `IOWorker.run` lines 98-101). -/
theorem seek_line_rendered :
    (send_cmd [("seek", ["Float"])] Option.none Option.none Option.none "seek"
        [PyVal.float ⟨105, 1⟩] Option.none Option.none
      = Except.ok ⟨"", "seek 10.500000", Value.null⟩) ∧
    (handleCall wPlay "" "seek 10.500000" Value.null).map WState.writes
      = some [" seek 10.500000\n"] := ⟨rfl, by decide⟩
